import Mathlib

/-!
Shallow embedding of `src/source/helper/website_helper.py`, the CloudFormation
custom-resource deployment handler: dispatch on the request type, copy the
manifest of website assets from the source bucket to the destination bucket,
optionally overwrite `runtimeConfig.json` with a JSON object built from eight
environment variables, and report the outcome to the callback URL.

External effects (S3 copy, S3 put, HTTP callback) are modelled by an oracle
`World` describing which remote operations succeed, and a state `St` recording
the trace of observable actions: responses sent, copy attempts, and the
contents of the destination bucket.
-/

set_option autoImplicit false

namespace WebsiteHelper

/-! ## Python `str.split` (needed for `DeploymentBucket.split('.')[0]`, line 76) -/

/-- Model of Python `str.split(sep)` for a single-character separator, on the
underlying character list.  `splitAux` accumulates the current segment in
reverse, mirroring the fact that Python split always yields at least one
(possibly empty) segment. -/
def splitAux (sep : Char) : List Char → List Char → List (List Char)
  | [], acc => [acc.reverse]
  | c :: cs, acc =>
    if c = sep then acc.reverse :: splitAux sep cs []
    else splitAux sep cs (c :: acc)

/-- Python `s.split(sep)` for a one-character separator. -/
def pySplit (s : List Char) (sep : Char) : List (List Char) :=
  splitAux sep s []

/-- Line 76: `event["ResourceProperties"]["DeploymentBucket"].split('.')[0]`.
The indexing `[0]` is modelled by `headD []`; totality (the split list is
never empty) is proved below. -/
def firstSegment (s : String) : String :=
  ⟨(pySplit s.data '.').headD []⟩

/-! ## Data model: event, context, environment, external world -/

/-- The `ResourceProperties` map of the event: each of the three keys the code
reads may be present or absent (absence raises `KeyError` in Python). -/
structure ResourceProps where
  websiteCodeBucket : Option String
  websiteCodeKeyPfx : Option String
  deploymentBucket : Option String
  deriving DecidableEq

/-- The CloudFormation lifecycle event (`RequestType`, stack identifiers,
callback URL, resource properties). -/
structure Event where
  requestType : String
  stackId : String
  requestId : String
  logicalResourceId : String
  responseURL : String
  resourceProps : ResourceProps
  deriving DecidableEq

/-- The Lambda invocation context; the code only reads `log_stream_name`. -/
structure Context where
  logStreamName : String
  deriving DecidableEq

/-- The process environment restricted to the eight variables the code reads
(lines 85–92); each may be present or absent. -/
structure Env where
  searchEndpoint : Option String
  dataplaneEndpoint : Option String
  workflowEndpoint : Option String
  dataplaneBucket : Option String
  userPoolId : Option String
  awsRegion : Option String
  poolClientId : Option String
  identityPoolId : Option String
  deriving DecidableEq

/-- Oracle for the remote S3 operations.  `source b k` is `some content` when
`s3.meta.client.copy` from bucket `b`, key `k` succeeds (copying `content`),
and `none` when that copy raises.  `putOk b k body` tells whether
`s3_client.put_object` succeeds. -/
structure World where
  source : String → String → Option String
  putOk : String → String → String → Bool

/-- Observable state of one invocation: the `(status, message)` responses sent
to the callback URL in order, the manifest keys for which a copy was
attempted in order, and the destination object store contents. -/
structure St where
  responses : List (String × String)
  copies : List String
  dst : String → String → Option String

/-- Initial state of an invocation: nothing sent, nothing copied. -/
def St.init : St :=
  { responses := [], copies := [], dst := fun _ _ => none }

/-! ## `json.dumps` with its default `ensure_ascii=True` escaping

CPython's serializer passes through the printable ASCII range 0x20–0x7e
(escaping `"` and `\` and the usual control shorthands) and escapes every
other character as `\uXXXX` (a surrogate pair for code points above 0xFFFF),
so the serialized text is always ASCII.  Python `len` counts code points and
`str.encode('utf-8')` yields the UTF-8 bytes; both are modelled below. -/

/-- Lower-case hexadecimal digit of `n % 16`, as CPython's `\u%04x` emits. -/
def hexDigitChar (n : Nat) : Char :=
  match n % 16 with
  | 0 => '0' | 1 => '1' | 2 => '2' | 3 => '3' | 4 => '4'
  | 5 => '5' | 6 => '6' | 7 => '7' | 8 => '8' | 9 => '9'
  | 10 => 'a' | 11 => 'b' | 12 => 'c' | 13 => 'd' | 14 => 'e' | _ => 'f'

/-- The six-character escape `\uXXXX` for a code unit `n < 0x10000`. -/
def uEscape4 (n : Nat) : List Char :=
  ['\\', 'u', hexDigitChar (n / 4096), hexDigitChar (n / 256),
   hexDigitChar (n / 16), hexDigitChar n]

/-- Escaping of one character under `ensure_ascii`. -/
def escapeChar (c : Char) : List Char :=
  if c = '"' then ['\\', '"']
  else if c = '\\' then ['\\', '\\']
  else if c = Char.ofNat 8 then ['\\', 'b']
  else if c = Char.ofNat 9 then ['\\', 't']
  else if c = Char.ofNat 10 then ['\\', 'n']
  else if c = Char.ofNat 12 then ['\\', 'f']
  else if c = Char.ofNat 13 then ['\\', 'r']
  else if c.toNat < 32 ∨ 126 < c.toNat then
    if c.toNat < 65536 then uEscape4 c.toNat
    else uEscape4 (55296 + (c.toNat - 65536) / 1024) ++ uEscape4 (56320 + (c.toNat - 65536) % 1024)
  else [c]

/-- Escape every character of a string body. -/
def escAll : List Char → List Char
  | [] => []
  | c :: cs => escapeChar c ++ escAll cs

/-- JSON string literal: quote, escaped body, quote. -/
def jsonString (s : List Char) : List Char :=
  '"' :: escAll s ++ ['"']

/-- One `"key": value` member; the value is already serialized.  Python's
default separator between key and value is `': '`. -/
def renderField (p : List Char × List Char) : List Char :=
  jsonString p.1 ++ ':' :: ' ' :: p.2

/-- Join already-rendered members with Python's default item separator `', '`. -/
def joinCommaSp : List (List Char) → List Char
  | [] => []
  | [x] => x
  | x :: y :: rest => x ++ ',' :: ' ' :: joinCommaSp (y :: rest)

/-- JSON object from a list of members in insertion order (CPython dicts keep
insertion order and `json.dumps` serializes in that order). -/
def jsonObject (fields : List (List Char × List Char)) : List Char :=
  '\x7b' :: joinCommaSp (fields.map renderField) ++ ['\x7d']

/-- Serialization `json.dumps` of a string-valued dict, as a `String` (used
for `json.dumps(new_variables)` at line 115). -/
def jsonDumpsObj (fields : List (String × String)) : String :=
  ⟨jsonObject (fields.map fun p => (p.1.data, jsonString p.2.data))⟩

/-- Python `len` on a string: the number of code points. -/
def pyLen (s : List Char) : Nat := s.length

/-- Number of UTF-8 bytes encoding one code point. -/
def charUtf8Size (c : Char) : Nat :=
  if c.toNat < 128 then 1 else if c.toNat < 2048 then 2
  else if c.toNat < 65536 then 3 else 4

/-- Byte length of `s.encode('utf-8')`. -/
def utf8Len : List Char → Nat
  | [] => 0
  | c :: cs => charUtf8Size c + utf8Len cs

/-! ## The handler functions (lines 61–147) -/

/-- Response messages used by the code, named for reuse in the theorems. -/
def msgWriteFail : String := "Failed to write file to s3 after variable replacement"

def msgMissingProps : String := "Failed to retrieve required values from the CloudFormation event"

def msgGenericFail : String := "Unexpected event received from CloudFormation"

def msgCreateOk : String := "Resource creation successful!"

def msgDeleteOk : String := "Resource deletion successful!"

/-- Lines 61–69, `write_to_s3`: try `put_object`; on failure log and send a
FAILED response — and return normally either way (the exception is swallowed,
nothing is re-raised to the caller). -/
def write_to_s3 (w : World) (st : St) (bucket key body : String) : St :=
  if w.putOk bucket key body then
    { st with dst := fun b k => if b = bucket ∧ k = key then some body else st.dst b k }
  else
    { st with responses := st.responses ++ [("FAILED", msgWriteFail)] }

/-- Lines 84–101: read the eight environment variables; if any is absent the
`KeyError` is caught and substitution is disabled (`none`); if all are present
build the substitution map in insertion order, the search endpoint value
prefixed with `https://`. -/
def buildVars (env : Env) : Option (List (String × String)) :=
  match env.searchEndpoint, env.dataplaneEndpoint, env.workflowEndpoint,
    env.dataplaneBucket, env.userPoolId, env.awsRegion, env.poolClientId,
    env.identityPoolId with
  | some se, some de, some we, some db, some up, some rg, some ci, some ii =>
    some [("SEARCH_ENDPOINT", "https://" ++ se),
          ("WORKFLOW_API_ENDPOINT", we),
          ("DATAPLANE_API_ENDPOINT", de),
          ("DATAPLANE_BUCKET", db),
          ("AWS_REGION", rg),
          ("USER_POOL_ID", up),
          ("USER_POOL_CLIENT_ID", ci),
          ("IDENTITY_POOL_ID", ii)]
  | _, _, _, _, _, _, _, _ => none

/-- Lines 106–115, the body of the manifest loop for one key.  The copy
attempt is recorded, then `s3.meta.client.copy` runs: on failure the returned
flag is `true` (an exception was raised, to be caught by the enclosing `try`
of lines 81–119); on success the destination object is written, and when
substitution is active and the key is `runtimeConfig.json`, `write_to_s3`
overwrites the fresh copy with `json.dumps(new_variables)` (line 115). -/
def copyStep (w : World) (sb sk wb : String) (vars : Option (List (String × String)))
    (key : String) (st : St) : St × Bool :=
  let st1 : St := { st with copies := st.copies ++ [key] }
  match w.source sb (sk ++ "/" ++ key) with
  | none => (st1, true)
  | some content =>
    let st2 : St :=
      { st1 with dst := fun b k => if b = wb ∧ k = key then some content else st1.dst b k }
    let st3 : St :=
      match vars with
      | some nv =>
        if key = "runtimeConfig.json" then write_to_s3 w st2 wb key (jsonDumpsObj nv) else st2
      | none => st2
    (st3, false)

/-- Lines 106–115, the manifest loop: run `copyStep` on each key in order;
a raised copy aborts the remaining entries.  Returns the final state and
`true` when the loop ran to completion, `false` when a copy raised. -/
def copyLoop (w : World) (sb sk wb : String) (vars : Option (List (String × String))) :
    List String → St → St × Bool
  | [], st => (st, true)
  | key :: rest, st =>
    let p := copyStep w sb sk wb vars key st
    if p.2 then (p.1, false) else copyLoop w sb sk wb vars rest p.1

/-- Lines 72–122, `copy_source`: extract the three resource properties (a
missing one raises `KeyError`, caught at line 77 → FAILED, no copies), derive
the destination bucket by `split('.')[0]`, read the environment bundle, run
the manifest loop, and send SUCCESS if the loop completed or the generic
FAILED if a copy raised. -/
def copy_source (w : World) (env : Env) (manifest : List String) (ev : Event) (st : St) : St :=
  match ev.resourceProps.websiteCodeBucket, ev.resourceProps.websiteCodeKeyPfx,
    ev.resourceProps.deploymentBucket with
  | some sb, some sk, some db =>
    let wb := firstSegment db
    let p := copyLoop w sb sk wb (buildVars env) manifest st
    if p.2 then
      { p.1 with responses := p.1.responses ++ [("SUCCESS", msgCreateOk)] }
    else
      { p.1 with responses := p.1.responses ++ [("FAILED", msgGenericFail)] }
  | _, _, _ =>
    { st with responses := st.responses ++ [("FAILED", msgMissingProps)] }

/-- Lines 125–147, `lambda_handler`: dispatch on `RequestType`.  Create and
Update run `copy_source`; Delete sends SUCCESS directly; anything else sends
the generic FAILED.  (The top-level `except` of lines 145–147 only fires when
`send_response` itself or the logging raises, which is outside this model.) -/
def lambda_handler (w : World) (env : Env) (manifest : List String) (ev : Event) : St :=
  if ev.requestType = "Create" then copy_source w env manifest ev St.init
  else if ev.requestType = "Update" then copy_source w env manifest ev St.init
  else if ev.requestType = "Delete" then
    { St.init with responses := [("SUCCESS", msgDeleteOk)] }
  else
    { St.init with responses := [("FAILED", msgGenericFail)] }

/-- Number of occurrences of a response in the trace. -/
def countOcc (x : String × String) : List (String × String) → Nat
  | [] => 0
  | y :: ys => (if y = x then 1 else 0) + countOcc x ys

/-! ## `send_response` (lines 34–58) -/

/-- The HTTP request `send_response` builds and delivers through
`opener.open`: one PUT to the event's `ResponseURL`. -/
structure HttpRequest where
  url : String
  method : String
  contentType : String
  contentLength : Nat
  body : List Char

/-- Lines 38–46: the serialized response body.  All call sites pass
`{"Message": message}` as `response_data`. -/
def responseBody (ev : Event) (ctx : Context) (status message : String) : List Char :=
  jsonObject
    [("Status".data, jsonString status.data),
     ("Reason".data,
      jsonString ("See the details in CloudWatch Log Stream: " ++ ctx.logStreamName).data),
     ("PhysicalResourceId".data, jsonString ctx.logStreamName.data),
     ("StackId".data, jsonString ev.stackId.data),
     ("RequestId".data, jsonString ev.requestId.data),
     ("LogicalResourceId".data, jsonString ev.logicalResourceId.data),
     ("Data".data, jsonObject [("Message".data, jsonString message.data)])]

/-- Lines 48–56, `send_response`: a single request to `event['ResponseURL']`
whose data is the UTF-8 encoded body, with `Content-Type` set to the empty
string, `Content-Length` set to `str(len(response_body))` (the code-point
count of the body string), and the method forced to `PUT`. -/
def send_response (ev : Event) (ctx : Context) (status message : String) : HttpRequest :=
  let body := responseBody ev ctx status message
  { url := ev.responseURL
    method := "PUT"
    contentType := ""
    contentLength := pyLen body
    body := body }

/-! ## Concrete fixtures used by the witnesses -/

/-- Resource properties with all three required keys present. -/
def propsAll : ResourceProps :=
  { websiteCodeBucket := some "code-bucket"
    websiteCodeKeyPfx := some "website"
    deploymentBucket := some "my-site.s3-website-us-west-2.amazonaws.com" }

/-- An event with the given request type and complete resource properties. -/
def evOf (rt : String) : Event :=
  { requestType := rt
    stackId := "arn-stack-1"
    requestId := "req-1"
    logicalResourceId := "WebsiteDeployHelper"
    responseURL := "https://cloudformation-custom-resource.example.com/cb"
    resourceProps := propsAll }

/-- All eight environment variables present. -/
def envAll : Env :=
  { searchEndpoint := some "search.example.com"
    dataplaneEndpoint := some "dataplane.example.com"
    workflowEndpoint := some "workflow.example.com"
    dataplaneBucket := some "dataplane-bucket"
    userPoolId := some "us-west-2_pool"
    awsRegion := some "us-west-2"
    poolClientId := some "client-1234"
    identityPoolId := some "identity-5678" }

/-- No environment variable present. -/
def envNone : Env :=
  { searchEndpoint := none
    dataplaneEndpoint := none
    workflowEndpoint := none
    dataplaneBucket := none
    userPoolId := none
    awsRegion := none
    poolClientId := none
    identityPoolId := none }

/-- A world where every copy and every put succeeds. -/
def wAllOk : World :=
  { source := fun _ _ => some "asset-bytes", putOk := fun _ _ _ => true }

/-- A world where every copy succeeds except the object `website/bad.css`. -/
def wFailCss : World :=
  { source := fun _ k => if k = "website/bad.css" then none else some "asset-bytes"
    putOk := fun _ _ _ => true }

/-! ## Lemmas about Python `split` -/

theorem splitAux_ne_nil (sep : Char) (l acc : List Char) : splitAux sep l acc ≠ [] := by
  induction l generalizing acc with
  | nil => simp [splitAux]
  | cons c cs ih =>
    simp only [splitAux]
    split
    · simp
    · exact ih _

theorem splitAux_no_sep (sep : Char) (l acc : List Char) (h : sep ∉ l) :
    splitAux sep l acc = [acc.reverse ++ l] := by
  induction l generalizing acc with
  | nil => simp [splitAux]
  | cons c cs ih =>
    have hc : ¬(c = sep) := by
      intro hcs
      exact h (hcs ▸ List.mem_cons_self c cs)
    have hcs : sep ∉ cs := fun hm => h (List.mem_cons_of_mem _ hm)
    simp only [splitAux, if_neg hc]
    rw [ih _ hcs]
    simp

theorem splitAux_sep (sep : Char) (seg rest acc : List Char) (h : sep ∉ seg) :
    splitAux sep (seg ++ sep :: rest) acc = (acc.reverse ++ seg) :: splitAux sep rest [] := by
  induction seg generalizing acc with
  | nil => simp [splitAux]
  | cons c cs ih =>
    have hc : ¬(c = sep) := by
      intro hcs
      exact h (hcs ▸ List.mem_cons_self c cs)
    show splitAux sep (c :: (cs ++ sep :: rest)) acc = _
    simp only [splitAux, if_neg hc]
    rw [ih (c :: acc) (fun hm => h (List.mem_cons_of_mem _ hm))]
    simp

/-- Claim C10: the destination-bucket derivation is total.  For every
`DeploymentBucket` string, `split('.')` yields a non-empty list (so the `[0]`
indexing never fails), and when the string contains no `'.'` the whole string
is the single segment, hence the bucket name. -/
theorem C10_split_total (s : String) :
    pySplit s.data '.' ≠ [] ∧
      ('.' ∉ s.data → pySplit s.data '.' = [s.data] ∧ firstSegment s = s) := by
  obtain ⟨d⟩ := s
  constructor
  · exact splitAux_ne_nil _ _ _
  · intro h
    have h1 : pySplit d '.' = [d] := by
      unfold pySplit
      rw [splitAux_no_sep _ _ _ h]
      simp
    exact ⟨h1, by unfold firstSegment; rw [h1]; rfl⟩

theorem C10_split_total_witness :
    pySplit "localbucket".data '.' ≠ [] ∧
      pySplit "localbucket".data '.' = ["localbucket".data] ∧
      firstSegment "localbucket" = "localbucket" :=
  ⟨(C10_split_total "localbucket").1, (C10_split_total "localbucket").2 (by decide)⟩

/-- Claim C7: the destination bucket used for the copies is the first
segment before a literal `'.'` of the `DeploymentBucket` property, and the
value `"my-site.s3-website-us-west-2.amazonaws.com"` yields `"my-site"`. -/
theorem C7_destination_bucket (seg rest : List Char) (h : '.' ∉ seg) :
    firstSegment ⟨seg ++ '.' :: rest⟩ = ⟨seg⟩ ∧
      firstSegment "my-site.s3-website-us-west-2.amazonaws.com" = "my-site" := by
  constructor
  · unfold firstSegment pySplit
    rw [show (String.mk (seg ++ '.' :: rest)).data = seg ++ '.' :: rest from rfl]
    rw [splitAux_sep _ _ _ _ h]
    simp
  · decide

theorem C7_destination_bucket_witness :
    firstSegment ⟨"my-site".data ++ '.' :: "s3-website-us-west-2.amazonaws.com".data⟩
        = ⟨"my-site".data⟩ ∧
      firstSegment "my-site.s3-website-us-west-2.amazonaws.com" = "my-site" :=
  C7_destination_bucket "my-site".data "s3-website-us-west-2.amazonaws.com".data (by decide)

/-! ## Dispatch claims -/

/-- Create and Update both route to `copy_source` from the initial state. -/
theorem lambda_handler_create_update (w : World) (env : Env) (manifest : List String)
    (ev : Event) (hrt : ev.requestType = "Create" ∨ ev.requestType = "Update") :
    lambda_handler w env manifest ev = copy_source w env manifest ev St.init := by
  rcases hrt with h|h <;> simp [lambda_handler, h]

/-- Claim C9: every `Delete` event yields exactly one SUCCESS response with
message `Resource deletion successful!` and zero copy operations. -/
theorem C9_delete_success (w : World) (env : Env) (manifest : List String) (ev : Event)
    (h : ev.requestType = "Delete") :
    (lambda_handler w env manifest ev).responses = [("SUCCESS", msgDeleteOk)] ∧
      (lambda_handler w env manifest ev).copies = [] := by
  simp [lambda_handler, h, St.init]

theorem C9_delete_success_witness :
    (lambda_handler wAllOk envAll ["index.html"] (evOf "Delete")).responses
        = [("SUCCESS", msgDeleteOk)] ∧
      (lambda_handler wAllOk envAll ["index.html"] (evOf "Delete")).copies = [] :=
  C9_delete_success wAllOk envAll ["index.html"] (evOf "Delete") rfl

/-- Claim C6: a Create/Update event missing any of the three required
resource properties yields exactly one FAILED response with the
missing-values message and zero copy attempts. -/
theorem C6_missing_props (w : World) (env : Env) (manifest : List String) (ev : Event)
    (hrt : ev.requestType = "Create" ∨ ev.requestType = "Update")
    (hmiss : ev.resourceProps.websiteCodeBucket = none ∨
      ev.resourceProps.websiteCodeKeyPfx = none ∨
      ev.resourceProps.deploymentBucket = none) :
    (lambda_handler w env manifest ev).responses = [("FAILED", msgMissingProps)] ∧
      (lambda_handler w env manifest ev).copies = [] := by
  rw [lambda_handler_create_update w env manifest ev hrt]
  unfold copy_source
  split
  · rcases hmiss with h|h|h <;> simp_all
  · simp [St.init]

theorem C6_missing_props_witness :
    (lambda_handler wAllOk envAll ["index.html"]
        { evOf "Create" with
          resourceProps :=
            { websiteCodeBucket := none
              websiteCodeKeyPfx := some "website"
              deploymentBucket := some "my-site.s3-website-us-west-2.amazonaws.com" } }).responses
        = [("FAILED", msgMissingProps)] ∧
      (lambda_handler wAllOk envAll ["index.html"]
        { evOf "Create" with
          resourceProps :=
            { websiteCodeBucket := none
              websiteCodeKeyPfx := some "website"
              deploymentBucket := some "my-site.s3-website-us-west-2.amazonaws.com" } }).copies
        = [] :=
  C6_missing_props _ _ _ _ (Or.inl rfl) (Or.inl rfl)

/-! ## Lemmas about the manifest loop -/

theorem countOcc_append (x : String × String) (l1 l2 : List (String × String)) :
    countOcc x (l1 ++ l2) = countOcc x l1 + countOcc x l2 := by
  induction l1 with
  | nil => simp [countOcc]
  | cons y ys ih => simp [countOcc, ih]; omega

theorem countOcc_eq_zero (x : String × String) (l : List (String × String))
    (h : ∀ y ∈ l, y ≠ x) : countOcc x l = 0 := by
  induction l with
  | nil => rfl
  | cons y ys ih =>
    have hy : ¬(y = x) := h y (List.mem_cons_self y ys)
    simp only [countOcc, if_neg hy, Nat.zero_add]
    exact ih (fun z hz => h z (List.mem_cons_of_mem _ hz))

theorem write_to_s3_copies (w : World) (st : St) (bucket key body : String) :
    (write_to_s3 w st bucket key body).copies = st.copies := by
  unfold write_to_s3
  split <;> rfl

theorem write_to_s3_responses (w : World) (st : St) (bucket key body : String) :
    (write_to_s3 w st bucket key body).responses = st.responses ∨
      (write_to_s3 w st bucket key body).responses
        = st.responses ++ [("FAILED", msgWriteFail)] := by
  unfold write_to_s3
  split
  · exact Or.inl rfl
  · exact Or.inr rfl

theorem write_to_s3_of_putOk (w : World) (st : St) (bucket key body : String)
    (h : w.putOk bucket key body = true) :
    write_to_s3 w st bucket key body
      = { st with dst := fun b k => if b = bucket ∧ k = key then some body else st.dst b k } := by
  simp [write_to_s3, h]

theorem write_to_s3_dst_other (w : World) (st : St) (bucket key body : String)
    (b k : String) (hk : k ≠ key) :
    (write_to_s3 w st bucket key body).dst b k = st.dst b k := by
  unfold write_to_s3
  split
  · simp [hk]
  · rfl

theorem copyStep_copies (w : World) (sb sk wb : String)
    (vars : Option (List (String × String))) (key : String) (st : St) :
    (copyStep w sb sk wb vars key st).1.copies = st.copies ++ [key] := by
  unfold copyStep
  cases w.source sb (sk ++ "/" ++ key) with
  | none => rfl
  | some content =>
    cases vars with
    | none => rfl
    | some nv =>
      by_cases hkey : key = "runtimeConfig.json"
      · simp only [hkey, if_pos]
        rw [write_to_s3_copies]
      · simp [hkey]

theorem copyStep_responses (w : World) (sb sk wb : String)
    (vars : Option (List (String × String))) (key : String) (st : St) :
    (copyStep w sb sk wb vars key st).1.responses = st.responses ∨
      (copyStep w sb sk wb vars key st).1.responses
        = st.responses ++ [("FAILED", msgWriteFail)] := by
  unfold copyStep
  cases w.source sb (sk ++ "/" ++ key) with
  | none => exact Or.inl rfl
  | some content =>
    cases vars with
    | none => exact Or.inl rfl
    | some nv =>
      by_cases hkey : key = "runtimeConfig.json"
      · simp only [hkey, if_pos]
        exact write_to_s3_responses _ _ _ _ _
      · simp [hkey]

theorem copyStep_responses_of_putOk (w : World) (sb sk wb : String)
    (vars : Option (List (String × String))) (key : String) (st : St)
    (hp : ∀ b k c, w.putOk b k c = true) :
    (copyStep w sb sk wb vars key st).1.responses = st.responses := by
  unfold copyStep
  cases w.source sb (sk ++ "/" ++ key) with
  | none => rfl
  | some content =>
    cases vars with
    | none => rfl
    | some nv =>
      by_cases hkey : key = "runtimeConfig.json"
      · simp only [hkey, if_pos]
        rw [write_to_s3_of_putOk _ _ _ _ _ (hp _ _ _)]
      · simp [hkey]

theorem copyStep_responses_of_vars_none (w : World) (sb sk wb : String)
    (key : String) (st : St) :
    (copyStep w sb sk wb none key st).1.responses = st.responses := by
  unfold copyStep
  cases w.source sb (sk ++ "/" ++ key) with
  | none => rfl
  | some content => rfl

theorem copyStep_aborts_iff (w : World) (sb sk wb : String)
    (vars : Option (List (String × String))) (key : String) (st : St) :
    (copyStep w sb sk wb vars key st).2 = true ↔ w.source sb (sk ++ "/" ++ key) = none := by
  unfold copyStep
  cases w.source sb (sk ++ "/" ++ key) with
  | none => simp
  | some content =>
    cases vars with
    | none => simp
    | some nv =>
      by_cases hkey : key = "runtimeConfig.json"
      · simp [hkey]
      · simp [hkey]

theorem copyStep_dst_other (w : World) (sb sk wb : String)
    (vars : Option (List (String × String))) (key : String) (st : St)
    (b k : String) (hk : k ≠ key) :
    (copyStep w sb sk wb vars key st).1.dst b k = st.dst b k := by
  unfold copyStep
  cases w.source sb (sk ++ "/" ++ key) with
  | none => rfl
  | some content =>
    cases vars with
    | none => simp [hk]
    | some nv =>
      by_cases hkey : key = "runtimeConfig.json"
      · subst hkey
        show (write_to_s3 w
            { responses := st.responses
              copies := st.copies ++ ["runtimeConfig.json"]
              dst := fun b' k' =>
                if b' = wb ∧ k' = "runtimeConfig.json" then some content else st.dst b' k' }
            wb "runtimeConfig.json" (jsonDumpsObj nv)).dst b k = st.dst b k
        rw [write_to_s3_dst_other _ _ _ _ _ _ _ hk]
        simp [hk]
      · simp [hkey, hk]

theorem copyStep_dst_rc_subst (w : World) (sb sk wb : String)
    (nv : List (String × String)) (st : St) (content : String)
    (hs : w.source sb (sk ++ "/" ++ "runtimeConfig.json") = some content)
    (hp : ∀ b k c, w.putOk b k c = true) :
    (copyStep w sb sk wb (some nv) "runtimeConfig.json" st).1.dst wb "runtimeConfig.json"
      = some (jsonDumpsObj nv) := by
  unfold copyStep
  rw [hs]
  simp only [if_pos rfl]
  rw [write_to_s3_of_putOk _ _ _ _ _ (hp _ _ _)]
  simp

theorem copyStep_dst_self_plain (w : World) (sb sk wb : String) (key : String)
    (st : St) (content : String)
    (hs : w.source sb (sk ++ "/" ++ key) = some content) :
    (copyStep w sb sk wb none key st).1.dst wb key = some content := by
  unfold copyStep
  rw [hs]
  simp

theorem copyLoop_cons (w : World) (sb sk wb : String)
    (vars : Option (List (String × String))) (key : String) (rest : List String) (st : St) :
    copyLoop w sb sk wb vars (key :: rest) st
      = if (copyStep w sb sk wb vars key st).2 = true
        then ((copyStep w sb sk wb vars key st).1, false)
        else copyLoop w sb sk wb vars rest (copyStep w sb sk wb vars key st).1 := rfl

theorem copyLoop_dst_preserve (w : World) (sb sk wb : String)
    (vars : Option (List (String × String))) (keys : List String) (st : St)
    (b k : String) (hk : k ∉ keys) :
    (copyLoop w sb sk wb vars keys st).1.dst b k = st.dst b k := by
  induction keys generalizing st with
  | nil => rfl
  | cons key rest ih =>
    have hne : k ≠ key := fun hkk => hk (hkk ▸ List.mem_cons_self key rest)
    have hrest : k ∉ rest := fun hm => hk (List.mem_cons_of_mem _ hm)
    rw [copyLoop_cons]
    split
    · exact copyStep_dst_other _ _ _ _ _ _ _ _ _ hne
    · rw [ih _ hrest]
      exact copyStep_dst_other _ _ _ _ _ _ _ _ _ hne

theorem copyLoop_completes (w : World) (sb sk wb : String)
    (vars : Option (List (String × String))) (keys : List String) (st : St)
    (hc : ∀ key ∈ keys, (w.source sb (sk ++ "/" ++ key)).isSome) :
    (copyLoop w sb sk wb vars keys st).2 = true ∧
      (copyLoop w sb sk wb vars keys st).1.copies = st.copies ++ keys := by
  induction keys generalizing st with
  | nil => simp [copyLoop]
  | cons key rest ih =>
    have hkey : (w.source sb (sk ++ "/" ++ key)).isSome := hc key (List.mem_cons_self key rest)
    have hstep : ¬((copyStep w sb sk wb vars key st).2 = true) := by
      intro h2
      rw [(copyStep_aborts_iff w sb sk wb vars key st).1 h2] at hkey
      simp at hkey
    rw [copyLoop_cons, if_neg hstep]
    obtain ⟨h1, h2⟩ := ih (copyStep w sb sk wb vars key st).1
      (fun k hm => hc k (List.mem_cons_of_mem _ hm))
    refine ⟨h1, ?_⟩
    rw [h2, copyStep_copies]
    simp

theorem copyLoop_responses_of_putOk (w : World) (sb sk wb : String)
    (vars : Option (List (String × String))) (keys : List String) (st : St)
    (hp : ∀ b k c, w.putOk b k c = true) :
    (copyLoop w sb sk wb vars keys st).1.responses = st.responses := by
  induction keys generalizing st with
  | nil => rfl
  | cons key rest ih =>
    rw [copyLoop_cons]
    split
    · exact copyStep_responses_of_putOk _ _ _ _ _ _ _ hp
    · rw [ih _]
      exact copyStep_responses_of_putOk _ _ _ _ _ _ _ hp

theorem copyLoop_responses_of_vars_none (w : World) (sb sk wb : String)
    (keys : List String) (st : St) :
    (copyLoop w sb sk wb none keys st).1.responses = st.responses := by
  induction keys generalizing st with
  | nil => rfl
  | cons key rest ih =>
    rw [copyLoop_cons]
    split
    · exact copyStep_responses_of_vars_none _ _ _ _ _ _
    · rw [ih _]
      exact copyStep_responses_of_vars_none _ _ _ _ _ _

theorem copyStep_responses_of_src_none (w : World) (sb sk wb : String)
    (vars : Option (List (String × String))) (key : String) (st : St)
    (hs : w.source sb (sk ++ "/" ++ key) = none) :
    (copyStep w sb sk wb vars key st).1.responses = st.responses := by
  unfold copyStep
  rw [hs]

theorem copyLoop_fail (w : World) (sb sk wb : String)
    (vars : Option (List (String × String))) (pre : List String) (k : String)
    (post : List String) (st : St)
    (hpre : ∀ key ∈ pre, (w.source sb (sk ++ "/" ++ key)).isSome)
    (hfail : w.source sb (sk ++ "/" ++ k) = none) :
    (copyLoop w sb sk wb vars (pre ++ k :: post) st).2 = false ∧
      (copyLoop w sb sk wb vars (pre ++ k :: post) st).1.copies = st.copies ++ pre ++ [k] ∧
      ∃ extra, (copyLoop w sb sk wb vars (pre ++ k :: post) st).1.responses
          = st.responses ++ extra ∧ ∀ r ∈ extra, r = ("FAILED", msgWriteFail) := by
  induction pre generalizing st with
  | nil =>
    have habort : (copyStep w sb sk wb vars k st).2 = true :=
      (copyStep_aborts_iff w sb sk wb vars k st).2 hfail
    rw [List.nil_append, copyLoop_cons, if_pos habort]
    refine ⟨rfl, ?_, ⟨[], ?_, by simp⟩⟩
    · rw [copyStep_copies]
      simp
    · rw [copyStep_responses_of_src_none _ _ _ _ _ _ _ hfail]
      simp
  | cons key pre' ih =>
    have hstep : ¬((copyStep w sb sk wb vars key st).2 = true) := by
      intro h2
      have hkey : (w.source sb (sk ++ "/" ++ key)).isSome :=
        hpre key (List.mem_cons_self key pre')
      rw [(copyStep_aborts_iff w sb sk wb vars key st).1 h2] at hkey
      simp at hkey
    rw [List.cons_append, copyLoop_cons, if_neg hstep]
    obtain ⟨h1, h2, extra', hre, hall⟩ := ih (copyStep w sb sk wb vars key st).1
      (fun kk hm => hpre kk (List.mem_cons_of_mem _ hm))
    refine ⟨h1, ?_, ?_⟩
    · rw [h2, copyStep_copies]
      simp
    · rcases copyStep_responses w sb sk wb vars key st with he|he
      · exact ⟨extra', by rw [hre, he], hall⟩
      · refine ⟨("FAILED", msgWriteFail) :: extra', ?_, ?_⟩
        · rw [hre, he]
          simp
        · intro r hr
          rcases List.mem_cons.1 hr with rfl|hr'
          · rfl
          · exact hall r hr'

theorem copyLoop_dst_rc_subst (w : World) (sb sk wb : String)
    (nv : List (String × String)) (keys : List String) (st : St)
    (hrc : "runtimeConfig.json" ∈ keys)
    (hc : ∀ key ∈ keys, (w.source sb (sk ++ "/" ++ key)).isSome)
    (hp : ∀ b k c, w.putOk b k c = true) :
    (copyLoop w sb sk wb (some nv) keys st).1.dst wb "runtimeConfig.json"
      = some (jsonDumpsObj nv) := by
  revert hrc hc
  induction keys generalizing st with
  | nil =>
    intro hrc _
    simp at hrc
  | cons key rest ih =>
    intro hrc hc
    have hstep : ¬((copyStep w sb sk wb (some nv) key st).2 = true) := by
      intro h2
      have hkey : (w.source sb (sk ++ "/" ++ key)).isSome :=
        hc key (List.mem_cons_self key rest)
      rw [(copyStep_aborts_iff w sb sk wb (some nv) key st).1 h2] at hkey
      simp at hkey
    rw [copyLoop_cons, if_neg hstep]
    by_cases hmem : "runtimeConfig.json" ∈ rest
    · exact ih _ hmem (fun kk hm => hc kk (List.mem_cons_of_mem _ hm))
    · have hkeyrc : key = "runtimeConfig.json" := by
        rcases List.mem_cons.1 hrc with h|h
        · exact h.symm
        · exact absurd h hmem
      subst hkeyrc
      rw [copyLoop_dst_preserve _ _ _ _ _ rest _ _ _ hmem]
      obtain ⟨content, hs⟩ :=
        Option.isSome_iff_exists.1 (hc _ (List.mem_cons_self _ rest))
      exact copyStep_dst_rc_subst w sb sk wb nv st content hs hp

theorem copyLoop_dst_rc_plain (w : World) (sb sk wb : String)
    (keys : List String) (st : St)
    (hrc : "runtimeConfig.json" ∈ keys)
    (hc : ∀ key ∈ keys, (w.source sb (sk ++ "/" ++ key)).isSome) :
    (copyLoop w sb sk wb none keys st).1.dst wb "runtimeConfig.json"
      = w.source sb (sk ++ "/" ++ "runtimeConfig.json") := by
  revert hrc hc
  induction keys generalizing st with
  | nil =>
    intro hrc _
    simp at hrc
  | cons key rest ih =>
    intro hrc hc
    have hstep : ¬((copyStep w sb sk wb none key st).2 = true) := by
      intro h2
      have hkey : (w.source sb (sk ++ "/" ++ key)).isSome :=
        hc key (List.mem_cons_self key rest)
      rw [(copyStep_aborts_iff w sb sk wb none key st).1 h2] at hkey
      simp at hkey
    rw [copyLoop_cons, if_neg hstep]
    by_cases hmem : "runtimeConfig.json" ∈ rest
    · exact ih _ hmem (fun kk hm => hc kk (List.mem_cons_of_mem _ hm))
    · have hkeyrc : key = "runtimeConfig.json" := by
        rcases List.mem_cons.1 hrc with h|h
        · exact h.symm
        · exact absurd h hmem
      subst hkeyrc
      rw [copyLoop_dst_preserve _ _ _ _ _ rest _ _ _ hmem]
      obtain ⟨content, hs⟩ :=
        Option.isSome_iff_exists.1 (hc _ (List.mem_cons_self _ rest))
      rw [hs]
      exact copyStep_dst_self_plain w sb sk wb _ st content hs

theorem copy_source_props (w : World) (env : Env) (manifest : List String)
    (ev : Event) (st : St) (sb sk db : String)
    (hb : ev.resourceProps.websiteCodeBucket = some sb)
    (hkp : ev.resourceProps.websiteCodeKeyPfx = some sk)
    (hd : ev.resourceProps.deploymentBucket = some db) :
    copy_source w env manifest ev st
      = (if (copyLoop w sb sk (firstSegment db) (buildVars env) manifest st).2 then
          { (copyLoop w sb sk (firstSegment db) (buildVars env) manifest st).1 with
            responses := (copyLoop w sb sk (firstSegment db) (buildVars env) manifest st).1.responses
              ++ [("SUCCESS", msgCreateOk)] }
        else
          { (copyLoop w sb sk (firstSegment db) (buildVars env) manifest st).1 with
            responses := (copyLoop w sb sk (firstSegment db) (buildVars env) manifest st).1.responses
              ++ [("FAILED", msgGenericFail)] }) := by
  unfold copy_source
  rw [hb, hkp, hd]

theorem buildVars_some (env : Env) (se de we dbk up rg ci ii : String)
    (h1 : env.searchEndpoint = some se) (h2 : env.dataplaneEndpoint = some de)
    (h3 : env.workflowEndpoint = some we) (h4 : env.dataplaneBucket = some dbk)
    (h5 : env.userPoolId = some up) (h6 : env.awsRegion = some rg)
    (h7 : env.poolClientId = some ci) (h8 : env.identityPoolId = some ii) :
    buildVars env
      = some [("SEARCH_ENDPOINT", "https://" ++ se),
              ("WORKFLOW_API_ENDPOINT", we),
              ("DATAPLANE_API_ENDPOINT", de),
              ("DATAPLANE_BUCKET", dbk),
              ("AWS_REGION", rg),
              ("USER_POOL_ID", up),
              ("USER_POOL_CLIENT_ID", ci),
              ("IDENTITY_POOL_ID", ii)] := by
  unfold buildVars
  rw [h1, h2, h3, h4, h5, h6, h7, h8]

theorem buildVars_none (env : Env)
    (h : env.searchEndpoint = none ∨ env.dataplaneEndpoint = none ∨
      env.workflowEndpoint = none ∨ env.dataplaneBucket = none ∨
      env.userPoolId = none ∨ env.awsRegion = none ∨
      env.poolClientId = none ∨ env.identityPoolId = none) :
    buildVars env = none := by
  unfold buildVars
  split
  · rcases h with h|h|h|h|h|h|h|h <;> simp_all
  · rfl

/-! ## Copy-path claims -/

/-- Claim C5: when the copy of some manifest entry fails (first failure at
`k`, after the successfully copied entries `pre`), the remaining entries are
skipped, exactly one FAILED response with the generic message
`Unexpected event received from CloudFormation` is sent, and no SUCCESS
response is ever sent in that invocation. -/
theorem C5_copy_failure_generic (w : World) (env : Env) (ev : Event)
    (pre post : List String) (k sb sk db : String)
    (hrt : ev.requestType = "Create" ∨ ev.requestType = "Update")
    (hb : ev.resourceProps.websiteCodeBucket = some sb)
    (hkp : ev.resourceProps.websiteCodeKeyPfx = some sk)
    (hd : ev.resourceProps.deploymentBucket = some db)
    (hpre : ∀ key ∈ pre, (w.source sb (sk ++ "/" ++ key)).isSome)
    (hfail : w.source sb (sk ++ "/" ++ k) = none) :
    countOcc ("FAILED", msgGenericFail)
        (lambda_handler w env (pre ++ k :: post) ev).responses = 1 ∧
      (∀ r ∈ (lambda_handler w env (pre ++ k :: post) ev).responses, r.1 ≠ "SUCCESS") ∧
      (lambda_handler w env (pre ++ k :: post) ev).copies = pre ++ [k] := by
  rw [lambda_handler_create_update _ _ _ _ hrt,
    copy_source_props w env _ ev St.init sb sk db hb hkp hd]
  obtain ⟨h2, hcop, extra, hre, hall⟩ :=
    copyLoop_fail w sb sk (firstSegment db) (buildVars env) pre k post St.init hpre hfail
  have hneg : ¬((copyLoop w sb sk (firstSegment db) (buildVars env)
      (pre ++ k :: post) St.init).2 = true) := by
    rw [h2]
    simp
  rw [if_neg hneg]
  refine ⟨?_, ?_, ?_⟩
  · show countOcc _ ((copyLoop w sb sk (firstSegment db) (buildVars env)
      (pre ++ k :: post) St.init).1.responses ++ [("FAILED", msgGenericFail)]) = 1
    rw [hre, countOcc_append,
      countOcc_eq_zero _ _ (fun y hy => by rw [hall y (by simpa [St.init] using hy)]; decide)]
    simp [countOcc]
  · intro r hr
    have hr' : r ∈ (copyLoop w sb sk (firstSegment db) (buildVars env)
        (pre ++ k :: post) St.init).1.responses ++ [("FAILED", msgGenericFail)] := hr
    rw [hre] at hr'
    rcases List.mem_append.1 hr' with h|h
    · rw [hall r (by simpa [St.init] using h)]
      decide
    · rw [List.mem_singleton.1 h]
      decide
  · show (copyLoop w sb sk (firstSegment db) (buildVars env)
      (pre ++ k :: post) St.init).1.copies = pre ++ [k]
    rw [hcop]
    rfl

theorem C5_copy_failure_generic_witness :
    countOcc ("FAILED", msgGenericFail)
        (lambda_handler wFailCss envAll (["index.html"] ++ "bad.css" :: ["app.js"])
          (evOf "Update")).responses = 1 ∧
      (∀ r ∈ (lambda_handler wFailCss envAll (["index.html"] ++ "bad.css" :: ["app.js"])
          (evOf "Update")).responses, r.1 ≠ "SUCCESS") ∧
      (lambda_handler wFailCss envAll (["index.html"] ++ "bad.css" :: ["app.js"])
          (evOf "Update")).copies = ["index.html"] ++ ["bad.css"] :=
  C5_copy_failure_generic wFailCss envAll (evOf "Update") ["index.html"] ["app.js"]
    "bad.css" "code-bucket" "website" "my-site.s3-website-us-west-2.amazonaws.com"
    (Or.inr rfl) rfl rfl rfl (by decide) (by decide)

/-- Claim C3: with all eight environment variables present and
`runtimeConfig.json` in the manifest, a successful Create/Update run leaves
as the final destination content of `runtimeConfig.json` exactly the JSON
serialization of the eight-key substitution map (search endpoint value
prefixed with `https://`), superseding the plain copy of that file. -/
theorem C3_runtime_config_substituted (w : World) (env : Env) (manifest : List String)
    (ev : Event) (sb sk db se de we dbk up rg ci ii : String)
    (hrt : ev.requestType = "Create" ∨ ev.requestType = "Update")
    (hb : ev.resourceProps.websiteCodeBucket = some sb)
    (hkp : ev.resourceProps.websiteCodeKeyPfx = some sk)
    (hd : ev.resourceProps.deploymentBucket = some db)
    (h1 : env.searchEndpoint = some se) (h2 : env.dataplaneEndpoint = some de)
    (h3 : env.workflowEndpoint = some we) (h4 : env.dataplaneBucket = some dbk)
    (h5 : env.userPoolId = some up) (h6 : env.awsRegion = some rg)
    (h7 : env.poolClientId = some ci) (h8 : env.identityPoolId = some ii)
    (hc : ∀ key ∈ manifest, (w.source sb (sk ++ "/" ++ key)).isSome)
    (hp : ∀ b k c, w.putOk b k c = true)
    (hrc : "runtimeConfig.json" ∈ manifest) :
    (lambda_handler w env manifest ev).dst (firstSegment db) "runtimeConfig.json"
      = some (jsonDumpsObj
          [("SEARCH_ENDPOINT", "https://" ++ se),
           ("WORKFLOW_API_ENDPOINT", we),
           ("DATAPLANE_API_ENDPOINT", de),
           ("DATAPLANE_BUCKET", dbk),
           ("AWS_REGION", rg),
           ("USER_POOL_ID", up),
           ("USER_POOL_CLIENT_ID", ci),
           ("IDENTITY_POOL_ID", ii)]) ∧
      (lambda_handler w env manifest ev).responses = [("SUCCESS", msgCreateOk)] := by
  have hv := buildVars_some env se de we dbk up rg ci ii h1 h2 h3 h4 h5 h6 h7 h8
  rw [lambda_handler_create_update _ _ _ _ hrt,
    copy_source_props w env manifest ev St.init sb sk db hb hkp hd]
  obtain ⟨hok, _⟩ :=
    copyLoop_completes w sb sk (firstSegment db) (buildVars env) manifest St.init hc
  rw [if_pos hok]
  constructor
  · show (copyLoop w sb sk (firstSegment db) (buildVars env) manifest St.init).1.dst
      (firstSegment db) "runtimeConfig.json" = _
    rw [hv]
    exact copyLoop_dst_rc_subst w sb sk (firstSegment db) _ manifest St.init hrc hc hp
  · show (copyLoop w sb sk (firstSegment db) (buildVars env) manifest St.init).1.responses
      ++ [("SUCCESS", msgCreateOk)] = [("SUCCESS", msgCreateOk)]
    rw [copyLoop_responses_of_putOk w sb sk (firstSegment db) (buildVars env)
      manifest St.init hp]
    rfl

theorem C3_runtime_config_substituted_witness :
    (lambda_handler wAllOk envAll ["css/app.css", "runtimeConfig.json"]
        (evOf "Create")).dst
        (firstSegment "my-site.s3-website-us-west-2.amazonaws.com") "runtimeConfig.json"
      = some (jsonDumpsObj
          [("SEARCH_ENDPOINT", "https://" ++ "search.example.com"),
           ("WORKFLOW_API_ENDPOINT", "workflow.example.com"),
           ("DATAPLANE_API_ENDPOINT", "dataplane.example.com"),
           ("DATAPLANE_BUCKET", "dataplane-bucket"),
           ("AWS_REGION", "us-west-2"),
           ("USER_POOL_ID", "us-west-2_pool"),
           ("USER_POOL_CLIENT_ID", "client-1234"),
           ("IDENTITY_POOL_ID", "identity-5678")]) ∧
      (lambda_handler wAllOk envAll ["css/app.css", "runtimeConfig.json"]
        (evOf "Create")).responses = [("SUCCESS", msgCreateOk)] :=
  C3_runtime_config_substituted wAllOk envAll ["css/app.css", "runtimeConfig.json"]
    (evOf "Create") "code-bucket" "website" "my-site.s3-website-us-west-2.amazonaws.com"
    "search.example.com" "dataplane.example.com" "workflow.example.com"
    "dataplane-bucket" "us-west-2_pool" "us-west-2" "client-1234" "identity-5678"
    (Or.inl rfl) rfl rfl rfl rfl rfl rfl rfl rfl rfl rfl rfl
    (fun _ _ => rfl) (fun _ _ _ => rfl) (by simp)

/-- Claim C8: with zero or only a partial subset of the eight environment
variables present, no error arises from that condition: the run still ends
with the single SUCCESS response, substitution is disabled, and
`runtimeConfig.json` ends up as the verbatim source content. -/
theorem C8_partial_env_verbatim_copy (w : World) (env : Env) (manifest : List String)
    (ev : Event) (sb sk db : String)
    (hrt : ev.requestType = "Create" ∨ ev.requestType = "Update")
    (hb : ev.resourceProps.websiteCodeBucket = some sb)
    (hkp : ev.resourceProps.websiteCodeKeyPfx = some sk)
    (hd : ev.resourceProps.deploymentBucket = some db)
    (hmiss : env.searchEndpoint = none ∨ env.dataplaneEndpoint = none ∨
      env.workflowEndpoint = none ∨ env.dataplaneBucket = none ∨
      env.userPoolId = none ∨ env.awsRegion = none ∨
      env.poolClientId = none ∨ env.identityPoolId = none)
    (hc : ∀ key ∈ manifest, (w.source sb (sk ++ "/" ++ key)).isSome)
    (hrc : "runtimeConfig.json" ∈ manifest) :
    (lambda_handler w env manifest ev).dst (firstSegment db) "runtimeConfig.json"
        = w.source sb (sk ++ "/" ++ "runtimeConfig.json") ∧
      (lambda_handler w env manifest ev).responses = [("SUCCESS", msgCreateOk)] := by
  have hv := buildVars_none env hmiss
  rw [lambda_handler_create_update _ _ _ _ hrt,
    copy_source_props w env manifest ev St.init sb sk db hb hkp hd]
  obtain ⟨hok, _⟩ :=
    copyLoop_completes w sb sk (firstSegment db) (buildVars env) manifest St.init hc
  rw [if_pos hok]
  constructor
  · show (copyLoop w sb sk (firstSegment db) (buildVars env) manifest St.init).1.dst
      (firstSegment db) "runtimeConfig.json" = _
    rw [hv]
    exact copyLoop_dst_rc_plain w sb sk (firstSegment db) manifest St.init hrc hc
  · show (copyLoop w sb sk (firstSegment db) (buildVars env) manifest St.init).1.responses
      ++ [("SUCCESS", msgCreateOk)] = [("SUCCESS", msgCreateOk)]
    rw [hv, copyLoop_responses_of_vars_none w sb sk (firstSegment db) manifest St.init]
    rfl

theorem C8_partial_env_verbatim_copy_witness :
    (lambda_handler wAllOk envNone ["runtimeConfig.json"] (evOf "Update")).dst
        (firstSegment "my-site.s3-website-us-west-2.amazonaws.com") "runtimeConfig.json"
        = wAllOk.source "code-bucket" ("website" ++ "/" ++ "runtimeConfig.json") ∧
      (lambda_handler wAllOk envNone ["runtimeConfig.json"] (evOf "Update")).responses
        = [("SUCCESS", msgCreateOk)] :=
  C8_partial_env_verbatim_copy wAllOk envNone ["runtimeConfig.json"] (evOf "Update")
    "code-bucket" "website" "my-site.s3-website-us-west-2.amazonaws.com"
    (Or.inr rfl) rfl rfl rfl (Or.inl rfl) (fun _ _ => rfl) (by simp)

/-! ## The double-response bug (`write_to_s3` swallows its failure)

When the overwrite of `runtimeConfig.json` fails, `write_to_s3` (lines 64–67)
sends a FAILED response and returns normally instead of re-raising, so the
loop in `copy_source` continues and the `else` branch at lines 120–122 sends
a second, contradictory SUCCESS response. -/

/-- Claim C1 evaluated at a failing input: a Create event with valid
properties, all eight environment variables, a one-entry manifest
`runtimeConfig.json`, every copy succeeding and every put failing, sends TWO
responses (FAILED then SUCCESS) — not exactly one. -/
theorem C1_two_responses_on_overwrite_failure :
    (lambda_handler
        { source := fun _ _ => some "original-config", putOk := fun _ _ _ => false }
        { searchEndpoint := some "search.example.com"
          dataplaneEndpoint := some "dataplane.example.com"
          workflowEndpoint := some "workflow.example.com"
          dataplaneBucket := some "dataplane-bucket"
          userPoolId := some "us-west-2_pool"
          awsRegion := some "us-west-2"
          poolClientId := some "client-1234"
          identityPoolId := some "identity-5678" }
        ["runtimeConfig.json"]
        { requestType := "Create"
          stackId := "arn-stack-1"
          requestId := "req-1"
          logicalResourceId := "WebsiteDeployHelper"
          responseURL := "https://cloudformation-custom-resource.example.com/cb"
          resourceProps :=
            { websiteCodeBucket := some "code-bucket"
              websiteCodeKeyPfx := some "website"
              deploymentBucket := some "my-site.s3-website-us-west-2.amazonaws.com" } }).responses
      = [("FAILED", msgWriteFail), ("SUCCESS", msgCreateOk)] ∧
    (lambda_handler
        { source := fun _ _ => some "original-config", putOk := fun _ _ _ => false }
        { searchEndpoint := some "search.example.com"
          dataplaneEndpoint := some "dataplane.example.com"
          workflowEndpoint := some "workflow.example.com"
          dataplaneBucket := some "dataplane-bucket"
          userPoolId := some "us-west-2_pool"
          awsRegion := some "us-west-2"
          poolClientId := some "client-1234"
          identityPoolId := some "identity-5678" }
        ["runtimeConfig.json"]
        { requestType := "Create"
          stackId := "arn-stack-1"
          requestId := "req-1"
          logicalResourceId := "WebsiteDeployHelper"
          responseURL := "https://cloudformation-custom-resource.example.com/cb"
          resourceProps :=
            { websiteCodeBucket := some "code-bucket"
              websiteCodeKeyPfx := some "website"
              deploymentBucket := some "my-site.s3-website-us-west-2.amazonaws.com" } }).responses.length
      = 2 := by
  constructor <;> rfl

/-- Claim C2 evaluated at a failing input: after the failed overwrite of
`runtimeConfig.json`, the remaining manifest entry `index.html` is still
copied (not aborted) and the terminal outcome of the invocation is the
SUCCESS response, not the FAILED overwrite response. -/
theorem C2_overwrite_failure_not_terminal :
    (lambda_handler
        { source := fun _ _ => some "original-config", putOk := fun _ _ _ => false }
        { searchEndpoint := some "search.example.com"
          dataplaneEndpoint := some "dataplane.example.com"
          workflowEndpoint := some "workflow.example.com"
          dataplaneBucket := some "dataplane-bucket"
          userPoolId := some "us-west-2_pool"
          awsRegion := some "us-west-2"
          poolClientId := some "client-1234"
          identityPoolId := some "identity-5678" }
        ["runtimeConfig.json", "index.html"]
        { requestType := "Update"
          stackId := "arn-stack-1"
          requestId := "req-1"
          logicalResourceId := "WebsiteDeployHelper"
          responseURL := "https://cloudformation-custom-resource.example.com/cb"
          resourceProps :=
            { websiteCodeBucket := some "code-bucket"
              websiteCodeKeyPfx := some "website"
              deploymentBucket := some "my-site.s3-website-us-west-2.amazonaws.com" } }).copies
      = ["runtimeConfig.json", "index.html"] ∧
    (lambda_handler
        { source := fun _ _ => some "original-config", putOk := fun _ _ _ => false }
        { searchEndpoint := some "search.example.com"
          dataplaneEndpoint := some "dataplane.example.com"
          workflowEndpoint := some "workflow.example.com"
          dataplaneBucket := some "dataplane-bucket"
          userPoolId := some "us-west-2_pool"
          awsRegion := some "us-west-2"
          poolClientId := some "client-1234"
          identityPoolId := some "identity-5678" }
        ["runtimeConfig.json", "index.html"]
        { requestType := "Update"
          stackId := "arn-stack-1"
          requestId := "req-1"
          logicalResourceId := "WebsiteDeployHelper"
          responseURL := "https://cloudformation-custom-resource.example.com/cb"
          resourceProps :=
            { websiteCodeBucket := some "code-bucket"
              websiteCodeKeyPfx := some "website"
              deploymentBucket := some "my-site.s3-website-us-west-2.amazonaws.com" } }).responses
      = [("FAILED", msgWriteFail), ("SUCCESS", msgCreateOk)] := by
  constructor <;> rfl

/-! ## ASCII analysis of the serialized response body

Line 54 sets `Content-Length` to `str(len(response_body))`, the code-point
count, while the request data is `response_body.encode('utf-8')`.  The two
agree because `json.dumps` with its default `ensure_ascii=True` emits only
ASCII characters. -/

theorem hexDigitChar_ascii (n : Nat) : (hexDigitChar n).toNat < 128 := by
  unfold hexDigitChar
  split <;> decide

theorem uEscape4_ascii (n : Nat) (x : Char) (hx : x ∈ uEscape4 n) : x.toNat < 128 := by
  simp only [uEscape4, List.mem_cons, List.not_mem_nil, or_false] at hx
  rcases hx with rfl|rfl|rfl|rfl|rfl|rfl
  · decide
  · decide
  · exact hexDigitChar_ascii _
  · exact hexDigitChar_ascii _
  · exact hexDigitChar_ascii _
  · exact hexDigitChar_ascii _

theorem escapeChar_ascii (c x : Char) (hx : x ∈ escapeChar c) : x.toNat < 128 := by
  unfold escapeChar at hx
  split_ifs at hx with h1 h2 h3 h4 h5 h6 h7 h8 h9
  · simp only [List.mem_cons, List.not_mem_nil, or_false] at hx
    rcases hx with rfl|rfl <;> decide
  · simp only [List.mem_cons, List.not_mem_nil, or_false] at hx
    rcases hx with rfl|rfl <;> decide
  · simp only [List.mem_cons, List.not_mem_nil, or_false] at hx
    rcases hx with rfl|rfl <;> decide
  · simp only [List.mem_cons, List.not_mem_nil, or_false] at hx
    rcases hx with rfl|rfl <;> decide
  · simp only [List.mem_cons, List.not_mem_nil, or_false] at hx
    rcases hx with rfl|rfl <;> decide
  · simp only [List.mem_cons, List.not_mem_nil, or_false] at hx
    rcases hx with rfl|rfl <;> decide
  · simp only [List.mem_cons, List.not_mem_nil, or_false] at hx
    rcases hx with rfl|rfl <;> decide
  · exact uEscape4_ascii _ _ hx
  · rcases List.mem_append.1 hx with h|h
    · exact uEscape4_ascii _ _ h
    · exact uEscape4_ascii _ _ h
  · simp only [List.mem_cons, List.not_mem_nil, or_false] at hx
    subst hx
    push_neg at h8
    omega

theorem escAll_ascii (s : List Char) (x : Char) (hx : x ∈ escAll s) : x.toNat < 128 := by
  induction s with
  | nil => simp [escAll] at hx
  | cons c cs ih =>
    simp only [escAll, List.mem_append] at hx
    rcases hx with h|h
    · exact escapeChar_ascii c x h
    · exact ih h

theorem jsonString_ascii (s : List Char) (x : Char) (hx : x ∈ jsonString s) :
    x.toNat < 128 := by
  unfold jsonString at hx
  rcases List.mem_cons.1 hx with rfl|hx'
  · decide
  · rcases List.mem_append.1 hx' with h|h
    · exact escAll_ascii s x h
    · rw [List.mem_singleton.1 h]
      decide

theorem joinCommaSp_ascii : ∀ (ls : List (List Char)),
    (∀ l ∈ ls, ∀ x ∈ l, x.toNat < 128) → ∀ x ∈ joinCommaSp ls, x.toNat < 128 := by
  intro ls
  induction ls with
  | nil =>
    intro _ x hx
    simp [joinCommaSp] at hx
  | cons a t ih =>
    intro h x hx
    cases t with
    | nil =>
      exact h a (List.mem_cons_self a []) x (by simpa [joinCommaSp] using hx)
    | cons b t' =>
      simp only [joinCommaSp, List.mem_append, List.mem_cons] at hx
      rcases hx with hm|rfl|rfl|hm
      · exact h a (List.mem_cons_self a _) x hm
      · decide
      · decide
      · exact ih (fun l hl => h l (List.mem_cons_of_mem _ hl)) x hm

theorem renderField_ascii (p : List Char × List Char)
    (hv : ∀ x ∈ p.2, x.toNat < 128) (x : Char) (hx : x ∈ renderField p) :
    x.toNat < 128 := by
  simp only [renderField, List.mem_append, List.mem_cons] at hx
  rcases hx with h|rfl|rfl|h
  · exact jsonString_ascii _ _ h
  · decide
  · decide
  · exact hv x h

theorem jsonObject_ascii (fields : List (List Char × List Char))
    (h : ∀ p ∈ fields, ∀ x ∈ p.2, x.toNat < 128) (x : Char)
    (hx : x ∈ jsonObject fields) : x.toNat < 128 := by
  unfold jsonObject at hx
  rcases List.mem_cons.1 hx with rfl|hx'
  · decide
  · rcases List.mem_append.1 hx' with hm|hm
    · refine joinCommaSp_ascii _ ?_ x hm
      intro l hl
      obtain ⟨p, hp, rfl⟩ := List.mem_map.1 hl
      exact renderField_ascii p (h p hp)
    · rw [List.mem_singleton.1 hm]
      decide

theorem responseBody_ascii (ev : Event) (ctx : Context) (status message : String)
    (x : Char) (hx : x ∈ responseBody ev ctx status message) : x.toNat < 128 := by
  refine jsonObject_ascii _ ?_ x hx
  intro p hp
  simp only [List.mem_cons, List.not_mem_nil, or_false] at hp
  rcases hp with rfl|rfl|rfl|rfl|rfl|rfl|rfl
  · exact fun y hy => jsonString_ascii _ y hy
  · exact fun y hy => jsonString_ascii _ y hy
  · exact fun y hy => jsonString_ascii _ y hy
  · exact fun y hy => jsonString_ascii _ y hy
  · exact fun y hy => jsonString_ascii _ y hy
  · exact fun y hy => jsonString_ascii _ y hy
  · intro y hy
    refine jsonObject_ascii _ ?_ y hy
    intro q hq
    simp only [List.mem_cons, List.not_mem_nil, or_false] at hq
    rcases hq with rfl
    exact fun z hz => jsonString_ascii _ z hz

theorem utf8Len_eq_pyLen (s : List Char) (h : ∀ c ∈ s, c.toNat < 128) :
    utf8Len s = pyLen s := by
  induction s with
  | nil => rfl
  | cons c cs ih =>
    have hc : charUtf8Size c = 1 := by
      unfold charUtf8Size
      rw [if_pos (h c (List.mem_cons_self c cs))]
    have ih' := ih (fun d hd => h d (List.mem_cons_of_mem _ hd))
    simp only [utf8Len, pyLen, List.length_cons] at ih' ⊢
    rw [hc]
    omega

/-- Claim C4: every response is one HTTP PUT to the event's callback URL:
the method is explicitly `PUT`, the `Content-Type` header is the empty
string, the body is the JSON-serialized Response Payload, and the
`Content-Length` header — set by the code to the code-point count
`len(response_body)` — equals the byte length of the UTF-8 encoded body,
because the `ensure_ascii` serialization is pure ASCII. -/
theorem C4_send_response_put (ev : Event) (ctx : Context) (status message : String) :
    (send_response ev ctx status message).url = ev.responseURL ∧
      (send_response ev ctx status message).method = "PUT" ∧
      (send_response ev ctx status message).contentType = "" ∧
      (send_response ev ctx status message).body = responseBody ev ctx status message ∧
      (send_response ev ctx status message).contentLength
        = utf8Len (send_response ev ctx status message).body := by
  refine ⟨rfl, rfl, rfl, rfl, ?_⟩
  show pyLen (responseBody ev ctx status message)
    = utf8Len (responseBody ev ctx status message)
  exact (utf8Len_eq_pyLen _ (fun c hc => responseBody_ascii ev ctx status message c hc)).symm

end WebsiteHelper
